import Mathlib

/-!
Verification of `src/reddit_streak.py` (StreakBot).

Shallow embedding conventions:
* Python strings are modelled as `List Char`; a text file is a list of lines.
* Fallible externals (page navigation, the streak-indicator wait) are modelled
  with `Except Unit`; their outcomes are supplied by an environment record.
* The browser side effects of `run_upvote_flow` are recorded as an explicit
  action trace (`List Act`).
-/

namespace RS

/-- Model of Python `s.lower()` (character-wise case folding). -/
def lowerStr (s : List Char) : List Char := s.map Char.toLower

/-- Model of Python `s.startswith(".")` (on the empty string it is `False`). -/
def strStartsWithDot : List Char → Bool
  | [] => false
  | c :: _ => c = '.'

/-- `listStartsWith hay needle` : `hay` begins with `needle`. -/
def listStartsWith : List Char → List Char → Bool
  | _, [] => true
  | [], _ :: _ => false
  | c :: cs, d :: ds => c = d && listStartsWith cs ds

/-- Model of Python `needle in hay` (substring containment). -/
def containsSub : List Char → List Char → Bool
  | [], needle => needle.isEmpty
  | c :: t, needle => listStartsWith (c :: t) needle || containsSub t needle

/-- Model of Python `s.strip()` (drop whitespace from both ends). -/
def stripWs (s : List Char) : List Char :=
  ((s.dropWhile Char.isWhitespace).reverse.dropWhile Char.isWhitespace).reverse

/-- Model of Python `s.split("\t")`. -/
def splitOnTab : List Char → List (List Char)
  | [] => [[]]
  | c :: rest =>
    let s := splitOnTab rest
    if c = '\t' then [] :: s
    else (c :: s.headD []) :: s.tail

/-- Model of Python `"\t".join(parts)`. -/
def joinTabs : List (List Char) → List Char
  | [] => []
  | [x] => x
  | x :: y :: t => x ++ '\t' :: joinTabs (y :: t)

def digitsToNatAux : List Char → Nat → Option Nat
  | [], acc => some acc
  | c :: t, acc => if c.isDigit then digitsToNatAux t (acc * 10 + (c.toNat - 48)) else none

/-- Value of a nonempty all-digit string, else `none`. -/
def digitsToNat : List Char → Option Nat
  | [] => none
  | c :: t => digitsToNatAux (c :: t) 0

/-- Model of Python `int(s)` on a string: `some n` on success, `none` on
`ValueError` (optional sign, surrounding whitespace allowed). -/
def parsePyInt (s : List Char) : Option Int :=
  match stripWs s with
  | '-' :: rest => (digitsToNat rest).map (fun n => -(n : Int))
  | '+' :: rest => (digitsToNat rest).map (fun n => (n : Int))
  | t => (digitsToNat t).map (fun n => (n : Int))

/-- The canonical cookie record built by all three loaders
(the Python dicts appended to `out` / `cookies`). -/
structure Cookie where
  name : List Char
  value : List Char
  domain : List Char
  path : List Char
  secure : Bool
  httpOnly : Bool
  sameSite : List Char
  expires : Option Int
deriving DecidableEq

/-- One cookie of the jar returned by `browser_cookie3.chrome` (src lines 74-79). -/
structure ChromeCookie where
  name : List Char
  value : List Char
  domain : List Char
  /-- `c.path`; `[]` stands for a falsy value (`None` or the empty string). -/
  pathRaw : List Char
  secure : Bool
  /-- `c.has_nonstandard_attr("HttpOnly")`. -/
  httpOnlyAttr : Bool
  /-- `c.expires`; `none` stands for Python `None`. -/
  expires : Option Int
deriving DecidableEq

/-- `load_cookies_from_chrome` (src lines 66-93), given the cookie jar; the
early `return []` branches (import failure, extraction failure) correspond to
the empty jar. -/
def load_cookies_from_chrome (cj : List ChromeCookie) : List Cookie :=
  cj.map fun c =>
    { name := c.name
    , value := c.value
    , domain := if strStartsWithDot c.domain then c.domain else '.' :: c.domain
    , path := if c.pathRaw = [] then "/".data else c.pathRaw
    , secure := c.secure
    , httpOnly := c.httpOnlyAttr
    , sameSite := "Lax".data
    , expires := match c.expires with
        | some e => if e = 0 then none else some e
        | none => none }

/-- One entry of the JSON export file (`load_cookies_from_json`), with the
`dict.get` defaults already applied where the code supplies one. -/
structure JsonCookie where
  /-- `c.get("domain", "")`. -/
  domain : List Char
  /-- `c.get("name", "")`. -/
  name : List Char
  /-- `c.get("value", "")`. -/
  value : List Char
  /-- `c.get("path", "/")`. -/
  path : List Char
  /-- `c.get("secure", False)`. -/
  secure : Bool
  /-- `c.get("httpOnly", False)`. -/
  httpOnly : Bool
  /-- `c.get("sameSite")`: `none` when the key is absent. -/
  sameSite : Option (List Char)
  /-- truthiness of `c.get("session")`. -/
  session : Bool
  /-- `c.get("expirationDate")`: `none` = key absent; `some none` = present but
  `int(float(...))` raises; `some (some n)` = numeric with value `n`. -/
  expirationDate : Option (Option Int)
deriving DecidableEq

/-- The `same_site_map` dict lookup with default `"Lax"`
(src lines 103 and 118-122). -/
def mapSameSite (ss : Option (List Char)) : List Char :=
  match ss with
  | some s =>
    if s = "no_restriction".data then "None".data
    else if s = "strict".data then "Strict".data
    else if s = "lax".data then "Lax".data
    else "Lax".data
  | none => "Lax".data

/-- `load_cookies_from_json` (src lines 96-135), given the decoded JSON list
(a single object is wrapped into a one-element list by the code). -/
def load_cookies_from_json (domain_filter : List Char) (data : List JsonCookie) :
    List Cookie :=
  data.filterMap fun c =>
    if containsSub c.domain domain_filter then
      some { name := c.name
           , value := c.value
           , domain := if strStartsWithDot c.domain then c.domain else '.' :: c.domain
           , path := c.path
           , secure := c.secure
           , httpOnly := c.httpOnly
           , sameSite := mapSameSite c.sameSite
           , expires :=
               if c.session then none
               else match c.expirationDate with
                 | none => none
                 | some none => none
                 | some (some n) => some n }
    else none

/-- Processing of one line of a Netscape-format cookies file
(the loop body of `load_cookies_from_netscape_file`, src lines 142-168). -/
def parseNetscapeLine (domain_filter : List Char) (rawLine : List Char) :
    Option Cookie :=
  let line := stripWs rawLine
  if line = [] then none
  else if line.head? = some '#' then none
  else
    let parts := splitOnTab line
    if parts.length < 7 then none
    else
      let domain := parts.getD 0 []
      let path := parts.getD 2 []
      let secure := parts.getD 3 []
      let expires := parts.getD 4 []
      let name := parts.getD 5 []
      let value := joinTabs (parts.drop 6)
      if containsSub domain domain_filter then
        let exp : Int := (parsePyInt expires).getD (-1)
        some { name := name
             , value := value
             , domain := if strStartsWithDot domain then domain else '.' :: domain
             , path := path
             , secure := decide (lowerStr secure = "true".data)
             , httpOnly := false
             , sameSite := "Lax".data
             , expires := if 0 ≤ exp then some exp else none }
      else none

/-- `load_cookies_from_netscape_file` (src lines 138-169), given the lines of
the file. -/
def load_cookies_from_netscape_file (domain_filter : List Char)
    (lines : List (List Char)) : List Cookie :=
  lines.filterMap (parseNetscapeLine domain_filter)

/-- Three-way outcome printed by `run_streak_check` (src lines 496-501). -/
inductive StreakReport where
  | notReached
  | reached
  | unknown
deriving DecidableEq

/-- The "not reached" signature: `"fire-faded" in src or "not been reached" in
alt.lower()` (src lines 405 and 496). -/
def fadedCond (src alt : List Char) : Bool :=
  containsSub src "fire-faded".data || containsSub (lowerStr alt) "not been reached".data

/-- The "reached" signature: `"fire.png" in src or "has been reached" in
alt.lower()` (src lines 406 and 498). -/
def reachedCond (src alt : List Char) : Bool :=
  containsSub src "fire.png".data || containsSub (lowerStr alt) "has been reached".data

/-- Boolean classification in `check_streak_on_page` (src lines 405-407). -/
def streakReached (src alt : List Char) : Bool :=
  !(fadedCond src alt) && reachedCond src alt

/-- Three-way classification in `run_streak_check` (src lines 496-501). -/
def streakStatusReport (src alt : List Char) : StreakReport :=
  if fadedCond src alt then StreakReport.notReached
  else if reachedCond src alt then StreakReport.reached
  else StreakReport.unknown

/-- Model of a `pathlib.Path` value: absoluteness flag plus components. -/
structure PyPath where
  isAbsolute : Bool
  segs : List (List Char)
deriving DecidableEq

/-- Python `base / p`: an absolute right operand replaces the base. -/
def PyPath.join (base p : PyPath) : PyPath :=
  if p.isAbsolute then p else ⟨base.isAbsolute, base.segs ++ p.segs⟩

/-- Cookie-file path resolution in `run_upvote_flow` (src lines 188-194):
`Path(cookies_file)`, made relative to the script's directory when not
absolute; `none` when `cookies_file` is unset/falsy. -/
def resolve_cookies_path_flow (scriptDir : PyPath) (cookies_file : Option PyPath) :
    Option PyPath :=
  match cookies_file with
  | none => none
  | some p => some (if p.isAbsolute then p else PyPath.join scriptDir p)

/-- Cookie-file path resolution in `run_streak_check` (src lines 428-434),
transcribed separately from its own lines. -/
def resolve_cookies_path_check (scriptDir : PyPath) (cookies_file : Option PyPath) :
    Option PyPath :=
  match cookies_file with
  | none => none
  | some p => some (if p.isAbsolute then p else PyPath.join scriptDir p)

/-- The three authentication strategies of the session bootstrap. -/
inductive AuthStrategy where
  | cookieFile (p : PyPath)
  | chromeProfile
  | persistentProfile
deriving DecidableEq

/-- Strategy selection (src lines 198, 217, 233): the cookie file wins only
when configured and existing; otherwise `use_chrome_cookies` decides. -/
def select_strategy (useChrome : Bool) (resolved : Option PyPath)
    (pathExists : PyPath → Bool) : AuthStrategy :=
  match resolved with
  | some p =>
      if pathExists p then AuthStrategy.cookieFile p
      else if useChrome then AuthStrategy.chromeProfile
      else AuthStrategy.persistentProfile
  | none =>
      if useChrome then AuthStrategy.chromeProfile
      else AuthStrategy.persistentProfile

/-- Browser-side actions performed by `run_upvote_flow`, in program order. -/
inductive Act where
  /-- `p.chromium.launch` (src lines 200-203 / 219-222). -/
  | launchBrowser
  /-- `p.chromium.launch_persistent_context` (src lines 235-239). -/
  | persistentLaunch
  /-- `browser.new_context()` (src lines 204 / 223). -/
  | newContext
  /-- `context.add_cookies(cookies)` with the number of cookies added. -/
  | addCookies (n : Nat)
  /-- `context.new_page()` / picking the first tab. -/
  | newPage
  /-- the navigation performed inside `check_streak_on_page` (src line 396). -/
  | gotoStreakCheck
  /-- `page.goto(url)` to the subreddit listing (src line 265). -/
  | gotoListing
  /-- `page.goto(post_url_abs)` (src line 326). -/
  | gotoPost
  /-- `upvote_btns[0].click()` (src line 339). -/
  | clickUpvote
  /-- `unvote_btns[0].click()` (src line 368). -/
  | clickUnvote
  /-- `context.close()`. -/
  | closeContext
  /-- `browser.close()`. -/
  | closeBrowser
deriving DecidableEq

/-- Resolved configuration record consumed by `run_upvote_flow`.
`streakCheckUrl` is the first component of `get_user_urls(config)`
(src line 186); `[]` stands for the empty string. -/
structure Config where
  /-- `get_subreddits(config)` (src line 174). -/
  subreddits : List (List Char)
  streakCheckUrl : List Char
  /-- `config.get("test_mode")`. -/
  testMode : Bool
  /-- `config.get("use_chrome_cookies", True)`. -/
  useChromeCookies : Bool
  /-- `config.get("cookies_file")`; `none` for unset/falsy. -/
  cookiesFile : Option PyPath
  /-- `Path(__file__).resolve().parent`. -/
  scriptDir : PyPath

/-- Outcomes of the external (browser/page/filesystem) steps of one run. -/
structure Env where
  /-- `cookies_path.exists()`. -/
  pathExists : PyPath → Bool
  /-- `cookies_path.suffix.lower() == ".json"` (src line 205). -/
  fileKindJson : Bool
  /-- decoded content of the JSON cookie file. -/
  jsonData : List JsonCookie
  /-- lines of the Netscape cookie file. -/
  nsLines : List (List Char)
  /-- the jar returned by `browser_cookie3.chrome` (src line 224). -/
  chromeRaw : List ChromeCookie
  /-- outcome of the gating `check_streak_on_page` call (src line 252):
  `.error` when it raises, `.ok (reached, days)` otherwise. -/
  checkBefore : Except Unit (Bool × Option Nat)
  /-- outcome of the informational `check_streak_on_page` call (src line 375). -/
  checkAfter : Except Unit (Bool × Option Nat)
  /-- number of matches after the listing-page fallback chain (src lines 272-281). -/
  listingUpvoteCount : Nat
  /-- post permalink extracted from the chosen post (src lines 297-318). -/
  postUrl : Option (List Char)
  /-- matches of the post-page upvote chain (src lines 331-335). -/
  postUpvoteCount : Nat
  /-- matches of the unvote chain (src lines 350-364). -/
  unvoteCount : Nat

/-- Cookies loaded from the configured cookie file (src lines 205-208). -/
def fileCookies (env : Env) : List Cookie :=
  if env.fileKindJson then load_cookies_from_json "reddit.com".data env.jsonData
  else load_cookies_from_netscape_file "reddit.com".data env.nsLines

/-- The listing/vote part of the `try` block (src lines 263-381), returning the
verdict of the block together with the page actions it performs. -/
def votePhase (cfg : Config) (env : Env) : Bool × List Act :=
  let acts := [Act.gotoListing]
  if env.listingUpvoteCount = 0 then
    (false, acts ++ [Act.closeContext])
  else
    match env.postUrl with
    | none => (false, acts ++ [Act.closeContext])
    | some _ =>
      let acts := acts ++ [Act.gotoPost]
      if env.postUpvoteCount = 0 then
        (false, acts ++ [Act.closeContext])
      else
        let acts := acts ++ [Act.clickUpvote]
        let acts := acts ++ (if env.unvoteCount = 0 then [] else [Act.clickUnvote])
        if cfg.streakCheckUrl = [] then (true, acts)
        else
          let acts := acts ++ [Act.gotoStreakCheck]
          match env.checkAfter with
          | Except.error _ => (false, acts)
          | Except.ok _ => (true, acts)

/-- The whole `try ... except` block (src lines 249-384): an exception in
either streak check reaches the handler at line 382, which returns `False`. -/
def tryBody (cfg : Config) (env : Env) : Bool × List Act :=
  if cfg.streakCheckUrl = [] then votePhase cfg env
  else
    match env.checkBefore with
    | Except.error _ => (false, [Act.gotoStreakCheck])
    | Except.ok (reached, _days) =>
      if reached && !cfg.testMode then (true, [Act.gotoStreakCheck])
      else
        let r := votePhase cfg env
        (r.1, Act.gotoStreakCheck :: r.2)

/-- The `finally` clause (src lines 385-389): after the body, close the
context, then the browser when one was launched separately. -/
def withCleanup (hasBrowser : Bool) (setup : List Act) (body : Bool × List Act) :
    Bool × List Act :=
  (body.1, setup ++ body.2 ++ [Act.closeContext] ++
    (if hasBrowser then [Act.closeBrowser] else []))

/-- `run_upvote_flow` (src lines 172-391): verdict and action trace of one run. -/
def run_upvote_flow (cfg : Config) (env : Env) : Bool × List Act :=
  if cfg.subreddits = [] then (false, [])
  else
    match select_strategy cfg.useChromeCookies
        (resolve_cookies_path_flow cfg.scriptDir cfg.cookiesFile) env.pathExists with
    | AuthStrategy.cookieFile _ =>
        withCleanup true
          (if fileCookies env = []
           then [Act.launchBrowser, Act.newContext, Act.newPage]
           else [Act.launchBrowser, Act.newContext,
                 Act.addCookies (fileCookies env).length, Act.newPage])
          (tryBody cfg env)
    | AuthStrategy.chromeProfile =>
        if load_cookies_from_chrome env.chromeRaw = [] then
          (false, [Act.launchBrowser, Act.newContext, Act.closeBrowser])
        else
          withCleanup true
            [Act.launchBrowser, Act.newContext,
             Act.addCookies (load_cookies_from_chrome env.chromeRaw).length,
             Act.newPage]
            (tryBody cfg env)
    | AuthStrategy.persistentProfile =>
        withCleanup false [Act.persistentLaunch, Act.newPage] (tryBody cfg env)

/-! ### Helper lemmas -/

theorem strStartsWithDot_norm (d : List Char) :
    strStartsWithDot (if strStartsWithDot d then d else '.' :: d) = true := by
  by_cases h : strStartsWithDot d = true
  · rwa [if_pos h]
  · rw [if_neg h]
    rfl

theorem splitOnTab_cons_tab (l : List Char) :
    splitOnTab ('\t' :: l) = [] :: splitOnTab l := by
  simp [splitOnTab]

theorem splitOnTab_cons_ne (c : Char) (l : List Char) (hc : ¬ c = '\t') :
    splitOnTab (c :: l) = (c :: (splitOnTab l).headD []) :: (splitOnTab l).tail := by
  simp only [splitOnTab]
  rw [if_neg hc]

theorem splitOnTab_ne_nil (l : List Char) : splitOnTab l ≠ [] := by
  cases l with
  | nil => simp [splitOnTab]
  | cons c rest =>
    by_cases hc : c = '\t'
    · subst hc; rw [splitOnTab_cons_tab]; simp
    · rw [splitOnTab_cons_ne c rest hc]; simp

theorem splitOnTab_field (a b : List Char) (ha : '\t' ∉ a) :
    splitOnTab (a ++ '\t' :: b) = a :: splitOnTab b := by
  induction a with
  | nil => rw [List.nil_append, splitOnTab_cons_tab]
  | cons c a ih =>
    have hc : ¬(c = '\t') := fun h => ha (by simp [h])
    have ha' : '\t' ∉ a := fun h => ha (List.mem_cons_of_mem _ h)
    rw [List.cons_append, splitOnTab_cons_ne c _ hc, ih ha']
    rfl

theorem joinTabs_splitOnTab (l : List Char) : joinTabs (splitOnTab l) = l := by
  induction l with
  | nil => rfl
  | cons c rest ih =>
    obtain ⟨h, t, hs⟩ : ∃ h t, splitOnTab rest = h :: t := by
      cases hsp : splitOnTab rest with
      | nil => exact absurd hsp (splitOnTab_ne_nil rest)
      | cons h t => exact ⟨h, t, rfl⟩
    by_cases hc : c = '\t'
    · subst hc
      rw [splitOnTab_cons_tab, hs]
      show [] ++ '\t' :: joinTabs (h :: t) = '\t' :: rest
      rw [List.nil_append, ← ih, hs]
    · have hsplit : splitOnTab (c :: rest) = (c :: h) :: t := by
        rw [splitOnTab_cons_ne c rest hc, hs]
        rfl
      rw [hsplit]
      cases t with
      | nil =>
        have hv : joinTabs [h] = rest := by rw [← hs]; exact ih
        show c :: h = c :: rest
        exact congrArg (List.cons c) hv
      | cons y t' =>
        show (c :: h) ++ '\t' :: joinTabs (y :: t') = c :: rest
        have hv : joinTabs (h :: y :: t') = rest := by rw [← hs]; exact ih
        rw [List.cons_append]
        exact congrArg (List.cons c) hv

/-- Inversion for a successful Netscape line parse. -/
theorem parseNetscapeLine_some_inv (f l : List Char) (c : Cookie)
    (h : parseNetscapeLine f l = some c) :
    strStartsWithDot c.domain = true ∧ c.httpOnly = false ∧
    7 ≤ (splitOnTab (stripWs l)).length ∧
    c.value = joinTabs ((splitOnTab (stripWs l)).drop 6) := by
  simp only [parseNetscapeLine] at h
  split at h
  · exact absurd h (by simp)
  · split at h
    · exact absurd h (by simp)
    · split at h
      · exact absurd h (by simp)
      · split at h
        · rename_i hlen hfil
          injection h with h'
          subst h'
          refine ⟨strStartsWithDot_norm _, rfl, by omega, rfl⟩
        · exact absurd h (by simp)

theorem parseNetscapeLine_comment (f l : List Char)
    (h : (stripWs l).head? = some '#') : parseNetscapeLine f l = none := by
  have hne : ¬(stripWs l = []) := by
    intro he; rw [he] at h; simp at h
  simp only [parseNetscapeLine]
  rw [if_neg hne, if_pos h]

theorem parseNetscapeLine_short (f l : List Char)
    (h : (splitOnTab (stripWs l)).length < 7) : parseNetscapeLine f l = none := by
  simp only [parseNetscapeLine]
  split
  · rfl
  · split
    · rfl
    · simp [h]

/-- A Netscape line assembled from six tab-free header fields and a value
(the value may itself contain tabs). -/
def mkNsLine (d fl p sec e n v : List Char) : List Char :=
  d ++ '\t' :: (fl ++ '\t' :: (p ++ '\t' :: (sec ++ '\t' ::
    (e ++ '\t' :: (n ++ '\t' :: v)))))

/-- Evaluation of the Netscape line parser once all guards pass. -/
theorem parseNetscapeLine_eval (f line : List Char)
    (hline : stripWs line = line)
    (hne : ¬ line = []) (hh : ¬ line.head? = some '#')
    (hlen : ¬ (splitOnTab line).length < 7)
    (hfil : containsSub ((splitOnTab line).getD 0 []) f = true) :
    parseNetscapeLine f line =
      some { name := (splitOnTab line).getD 5 []
           , value := joinTabs ((splitOnTab line).drop 6)
           , domain := if strStartsWithDot ((splitOnTab line).getD 0 [])
                       then (splitOnTab line).getD 0 []
                       else '.' :: (splitOnTab line).getD 0 []
           , path := (splitOnTab line).getD 2 []
           , secure := decide (lowerStr ((splitOnTab line).getD 3 []) = "true".data)
           , httpOnly := false
           , sameSite := "Lax".data
           , expires :=
               if 0 ≤ (parsePyInt ((splitOnTab line).getD 4 [])).getD (-1)
               then some ((parsePyInt ((splitOnTab line).getD 4 [])).getD (-1))
               else none } := by
  simp only [parseNetscapeLine, hline]
  rw [if_neg hne, if_neg hh, if_neg hlen, if_pos hfil]

/-! ### Claims about the cookie loaders and the streak classifier -/

/-- Claim C3 counterexample: the same-site mapping is not invariant under a
case change of the input. `"strict"` (the lower-cased form of `"Strict"`)
maps to `Strict`, while `"Strict"` itself falls through to the default `Lax`. -/
theorem mapSameSite_case_change_cex :
    mapSameSite (some (lowerStr "Strict".data)) = "Strict".data ∧
    mapSameSite (some "Strict".data) = "Lax".data ∧
    mapSameSite (some "Strict".data) ≠ mapSameSite (some (lowerStr "Strict".data)) := by
  refine ⟨by decide, by decide, by decide⟩

/-- Claim C3 (amended): the vendor same-site mapping is exact (case-sensitive):
`no_restriction` maps to `None`, `strict` to `Strict`, `lax` to `Lax`, and any
other or absent value — including case variants such as `"Strict"` — maps to
the default `Lax`. -/
theorem mapSameSite_exact :
    mapSameSite none = "Lax".data ∧
    mapSameSite (some "no_restriction".data) = "None".data ∧
    mapSameSite (some "strict".data) = "Strict".data ∧
    mapSameSite (some "lax".data) = "Lax".data ∧
    ∀ s : List Char, s ≠ "no_restriction".data → s ≠ "strict".data →
      s ≠ "lax".data → mapSameSite (some s) = "Lax".data := by
  refine ⟨by decide, by decide, by decide, by decide, ?_⟩
  intro s h1 h2 h3
  simp [mapSameSite, h1, h2, h3]

/-- Witness for `mapSameSite_exact` at the case variant `"No_Restriction"`. -/
theorem mapSameSite_exact_witness :
    mapSameSite (some "No_Restriction".data) = "Lax".data :=
  mapSameSite_exact.2.2.2.2 "No_Restriction".data (by decide) (by decide) (by decide)

/-- Claim C4: streak classification follows the precedence table — a faded
marker or explicit "not been reached" text forces not-reached regardless of
any reached signature; otherwise a `fire.png` marker or "has been reached"
text gives reached; otherwise the boolean defaults to false (the three-way
report of `run_streak_check` says `unknown` exactly when neither signature is
present, and `reached` exactly when the boolean classification is true). -/
theorem streak_classification_precedence :
    ∀ src alt : List Char,
      streakReached src alt =
        (if fadedCond src alt then false
         else if reachedCond src alt then true
         else false) ∧
      (streakReached src alt = true ↔
        streakStatusReport src alt = StreakReport.reached) ∧
      (streakStatusReport src alt = StreakReport.unknown ↔
        (fadedCond src alt = false ∧ reachedCond src alt = false)) := by
  intro src alt
  cases hf : fadedCond src alt <;> cases hr : reachedCond src alt <;>
    simp [streakReached, streakStatusReport, hf, hr]

/-- Claim C6: every cookie emitted by any of the three loaders has a domain
beginning with a dot. -/
theorem emitted_domains_start_with_dot :
    ∀ (f : List Char) (cj : List ChromeCookie) (jd : List JsonCookie)
      (ns : List (List Char)) (c : Cookie),
      (c ∈ load_cookies_from_chrome cj ∨ c ∈ load_cookies_from_json f jd ∨
       c ∈ load_cookies_from_netscape_file f ns) →
      strStartsWithDot c.domain = true := by
  intro f cj jd ns c h
  rcases h with h | h | h
  · obtain ⟨x, -, rfl⟩ := List.mem_map.1 h
    exact strStartsWithDot_norm x.domain
  · obtain ⟨x, -, hx⟩ := List.mem_filterMap.1 h
    split at hx
    · injection hx with h'
      subst h'
      exact strStartsWithDot_norm x.domain
    · exact absurd hx (by simp)
  · obtain ⟨x, -, hx⟩ := List.mem_filterMap.1 h
    exact (parseNetscapeLine_some_inv f x c hx).1

/-- Witness for `emitted_domains_start_with_dot`: a Chrome-profile cookie with
a dotless domain is emitted with the dot prepended. -/
theorem emitted_domains_start_with_dot_witness :
    strStartsWithDot
      (({ name := "k".data, value := "v".data, domain := '.' :: "reddit.com".data
        , path := "/".data, secure := false, httpOnly := false
        , sameSite := "Lax".data, expires := none } : Cookie).domain) = true :=
  emitted_domains_start_with_dot "reddit.com".data
    [{ name := "k".data, value := "v".data, domain := "reddit.com".data
     , pathRaw := "/".data, secure := false, httpOnlyAttr := false
     , expires := none }] [] [] _ (Or.inl (by decide))

/-- Claim C7: a Netscape line splitting into fewer than 7 tab-separated fields
is silently skipped — it yields no record, and removing it from the file
leaves the records of the remaining lines unchanged — and for lines with at
least 7 fields the cookie value is the 7th-and-onward fields rejoined with tab
characters, so a value containing tabs is preserved verbatim. -/
theorem netscape_short_skipped_and_tab_value_verbatim :
    (∀ (f line : List Char) (pre post : List (List Char)),
       (splitOnTab (stripWs line)).length < 7 →
       parseNetscapeLine f line = none ∧
       load_cookies_from_netscape_file f (pre ++ line :: post) =
         load_cookies_from_netscape_file f (pre ++ post)) ∧
    (∀ (f line : List Char) (c : Cookie),
       parseNetscapeLine f line = some c →
       7 ≤ (splitOnTab (stripWs line)).length ∧
       c.value = joinTabs ((splitOnTab (stripWs line)).drop 6)) ∧
    (∀ f d fl p sec e n v : List Char,
       d ≠ [] → ¬ d.head? = some '#' →
       '\t' ∉ d → '\t' ∉ fl → '\t' ∉ p → '\t' ∉ sec → '\t' ∉ e → '\t' ∉ n →
       containsSub d f = true →
       stripWs (mkNsLine d fl p sec e n v) = mkNsLine d fl p sec e n v →
       ∃ c : Cookie,
         parseNetscapeLine f (mkNsLine d fl p sec e n v) = some c ∧
         c.value = v ∧ c.name = n) := by
  refine ⟨?short, ?val, ?tabs⟩
  case short =>
    intro f line pre post hlen
    have hnone := parseNetscapeLine_short f line hlen
    refine ⟨hnone, ?_⟩
    simp [load_cookies_from_netscape_file, List.filterMap_append,
      List.filterMap_cons, hnone]
  case val =>
    intro f line c h
    exact ⟨(parseNetscapeLine_some_inv f line c h).2.2.1,
           (parseNetscapeLine_some_inv f line c h).2.2.2⟩
  case tabs =>
    intro f d fl p sec e n v hd hdh t1 t2 t3 t4 t5 t6 hfil hstrip
    have hsplit : splitOnTab (mkNsLine d fl p sec e n v) =
        d :: fl :: p :: sec :: e :: n :: splitOnTab v := by
      unfold mkNsLine
      rw [splitOnTab_field d _ t1, splitOnTab_field fl _ t2,
          splitOnTab_field p _ t3, splitOnTab_field sec _ t4,
          splitOnTab_field e _ t5, splitOnTab_field n _ t6]
    have hvpos : 0 < (splitOnTab v).length :=
      List.length_pos.2 (splitOnTab_ne_nil v)
    have hlen : ¬ (splitOnTab (mkNsLine d fl p sec e n v)).length < 7 := by
      rw [hsplit]
      simp only [List.length_cons]
      omega
    obtain ⟨c0, d', hdc⟩ : ∃ c0 d', d = c0 :: d' := by
      cases d with
      | nil => exact absurd rfl hd
      | cons c0 d' => exact ⟨c0, d', rfl⟩
    have hne : ¬ mkNsLine d fl p sec e n v = [] := by
      subst hdc; simp [mkNsLine]
    have hh : ¬ (mkNsLine d fl p sec e n v).head? = some '#' := by
      subst hdc
      simpa [mkNsLine] using hdh
    have hfil' :
        containsSub ((splitOnTab (mkNsLine d fl p sec e n v)).getD 0 []) f = true := by
      rw [hsplit]; simpa using hfil
    refine ⟨_, parseNetscapeLine_eval f _ hstrip hne hh hlen hfil', ?_, ?_⟩
    · show joinTabs ((splitOnTab (mkNsLine d fl p sec e n v)).drop 6) = v
      rw [hsplit]
      exact joinTabs_splitOnTab v
    · show (splitOnTab (mkNsLine d fl p sec e n v)).getD 5 [] = n
      rw [hsplit]
      simp [List.getD]

/-- Witness for `netscape_short_skipped_and_tab_value_verbatim`: a two-field
line contributes nothing, and a full line whose value contains two tabs parses
to a record carrying that value verbatim. -/
theorem netscape_tab_value_witness :
    (parseNetscapeLine "reddit.com".data "a\tb".data = none ∧
     load_cookies_from_netscape_file "reddit.com".data
       (["#c".data] ++ "a\tb".data ::
         [".reddit.com\tTRUE\t/\tTRUE\t100\tsid\tabc".data]) =
     load_cookies_from_netscape_file "reddit.com".data
       (["#c".data] ++ [".reddit.com\tTRUE\t/\tTRUE\t100\tsid\tabc".data])) ∧
    (∃ c : Cookie,
       parseNetscapeLine "reddit.com".data
         (mkNsLine ".reddit.com".data "TRUE".data "/".data "TRUE".data
           "100".data "sid".data "a\tb\tc".data) = some c ∧
       c.value = "a\tb\tc".data ∧ c.name = "sid".data) := by
  constructor
  · exact netscape_short_skipped_and_tab_value_verbatim.1 "reddit.com".data
      "a\tb".data ["#c".data] [".reddit.com\tTRUE\t/\tTRUE\t100\tsid\tabc".data]
      (by decide)
  · exact netscape_short_skipped_and_tab_value_verbatim.2.2 "reddit.com".data
      ".reddit.com".data "TRUE".data "/".data "TRUE".data "100".data "sid".data
      "a\tb\tc".data (by decide) (by decide) (by decide) (by decide) (by decide)
      (by decide) (by decide) (by decide) (by decide) (by decide)

/-- Claim C9: every line whose stripped text begins with `#` is skipped by the
Netscape parser — which in particular drops real cookie lines using the
`#HttpOnly_` domain prefix — and every record the parser does emit has
`httpOnly = false`. -/
theorem netscape_comments_skipped_and_httpOnly_false :
    (∀ f l : List Char, (stripWs l).head? = some '#' →
      parseNetscapeLine f l = none) ∧
    (∀ (f l : List Char) (c : Cookie), parseNetscapeLine f l = some c →
      c.httpOnly = false) :=
  ⟨fun f l h => parseNetscapeLine_comment f l h,
   fun f l c h => (parseNetscapeLine_some_inv f l c h).2.1⟩

/-- Witness for `netscape_comments_skipped_and_httpOnly_false`: a well-formed
`#HttpOnly_`-prefixed cookie line yields no record, and an ordinary line
yields a record with `httpOnly = false`. -/
theorem netscape_comments_witness :
    parseNetscapeLine "reddit.com".data
      "#HttpOnly_.reddit.com\tTRUE\t/\tTRUE\t100\tsid\tabc".data = none ∧
    ({ name := "sid".data, value := "abc".data, domain := ".reddit.com".data
     , path := "/".data, secure := true, httpOnly := false
     , sameSite := "Lax".data, expires := some 100 } : Cookie).httpOnly = false := by
  constructor
  · exact netscape_comments_skipped_and_httpOnly_false.1 "reddit.com".data
      "#HttpOnly_.reddit.com\tTRUE\t/\tTRUE\t100\tsid\tabc".data (by decide)
  · exact netscape_comments_skipped_and_httpOnly_false.2 "reddit.com".data
      ".reddit.com\tTRUE\t/\tTRUE\t100\tsid\tabc".data _ (by decide)

/-! ### Claims about the vote flow -/

/-- On every path that reaches the `try` block, the overall verdict of
`run_upvote_flow` is the verdict of the block (the `finally` clause does not
change it). -/
theorem run_verdict (cfg : Config) (env : Env)
    (hsub : cfg.subreddits ≠ [])
    (hchrome : select_strategy cfg.useChromeCookies
        (resolve_cookies_path_flow cfg.scriptDir cfg.cookiesFile) env.pathExists =
        AuthStrategy.chromeProfile → load_cookies_from_chrome env.chromeRaw ≠ []) :
    (run_upvote_flow cfg env).1 = (tryBody cfg env).1 := by
  rcases hsel : select_strategy cfg.useChromeCookies
      (resolve_cookies_path_flow cfg.scriptDir cfg.cookiesFile) env.pathExists
      with p | _ | _
  · unfold run_upvote_flow
    rw [if_neg hsub, hsel]
    rfl
  · unfold run_upvote_flow
    rw [if_neg hsub, hsel, if_neg (hchrome hsel)]
    rfl
  · unfold run_upvote_flow
    rw [if_neg hsub, hsel]
    rfl

/-- Claim C5: when the gating before-check reports the streak already reached
and test mode is unset, the run returns success and performs no listing
navigation, no post navigation and no vote-button click. -/
theorem streak_reached_skips_vote (cfg : Config) (env : Env) (d : Option Nat)
    (hsub : cfg.subreddits ≠ [])
    (hurl : cfg.streakCheckUrl ≠ [])
    (hbefore : env.checkBefore = Except.ok (true, d))
    (htest : cfg.testMode = false)
    (hchrome : select_strategy cfg.useChromeCookies
        (resolve_cookies_path_flow cfg.scriptDir cfg.cookiesFile) env.pathExists =
        AuthStrategy.chromeProfile → load_cookies_from_chrome env.chromeRaw ≠ []) :
    (run_upvote_flow cfg env).1 = true ∧
    Act.gotoListing ∉ (run_upvote_flow cfg env).2 ∧
    Act.gotoPost ∉ (run_upvote_flow cfg env).2 ∧
    Act.clickUpvote ∉ (run_upvote_flow cfg env).2 ∧
    Act.clickUnvote ∉ (run_upvote_flow cfg env).2 := by
  have htb : tryBody cfg env = (true, [Act.gotoStreakCheck]) := by
    unfold tryBody
    rw [if_neg hurl, hbefore]
    simp [htest]
  rcases hsel : select_strategy cfg.useChromeCookies
      (resolve_cookies_path_flow cfg.scriptDir cfg.cookiesFile) env.pathExists
      with p | _ | _
  · unfold run_upvote_flow
    rw [if_neg hsub, hsel, htb]
    by_cases hck : fileCookies env = [] <;>
      simp [hck, withCleanup]
  · unfold run_upvote_flow
    rw [if_neg hsub, hsel, if_neg (hchrome hsel), htb]
    simp [withCleanup]
  · unfold run_upvote_flow
    rw [if_neg hsub, hsel, htb]
    simp [withCleanup]

/-- Witness for `streak_reached_skips_vote` on a concrete configuration using
the persistent-profile strategy. -/
theorem streak_reached_skips_vote_witness :
    (run_upvote_flow
        ⟨["pics".data], "u".data, false, false, none, ⟨true, []⟩⟩
        ⟨fun _ => false, true, [], [], [], Except.ok (true, none),
         Except.ok (true, none), 1, some "x".data, 1, 1⟩).1 = true ∧
    Act.gotoListing ∉ (run_upvote_flow
        ⟨["pics".data], "u".data, false, false, none, ⟨true, []⟩⟩
        ⟨fun _ => false, true, [], [], [], Except.ok (true, none),
         Except.ok (true, none), 1, some "x".data, 1, 1⟩).2 ∧
    Act.gotoPost ∉ (run_upvote_flow
        ⟨["pics".data], "u".data, false, false, none, ⟨true, []⟩⟩
        ⟨fun _ => false, true, [], [], [], Except.ok (true, none),
         Except.ok (true, none), 1, some "x".data, 1, 1⟩).2 ∧
    Act.clickUpvote ∉ (run_upvote_flow
        ⟨["pics".data], "u".data, false, false, none, ⟨true, []⟩⟩
        ⟨fun _ => false, true, [], [], [], Except.ok (true, none),
         Except.ok (true, none), 1, some "x".data, 1, 1⟩).2 ∧
    Act.clickUnvote ∉ (run_upvote_flow
        ⟨["pics".data], "u".data, false, false, none, ⟨true, []⟩⟩
        ⟨fun _ => false, true, [], [], [], Except.ok (true, none),
         Except.ok (true, none), 1, some "x".data, 1, 1⟩).2 :=
  streak_reached_skips_vote
    ⟨["pics".data], "u".data, false, false, none, ⟨true, []⟩⟩
    ⟨fun _ => false, true, [], [], [], Except.ok (true, none),
     Except.ok (true, none), 1, some "x".data, 1, 1⟩
    none (by decide) (by decide) rfl rfl
    (fun h => absurd h (by decide))

/-- Claim C1 counterexample: a run that reaches the informational after-check
and whose check raises an exception returns success = false, while the same
run with a completing after-check returns success = true — so a failure
inside the after-check does change the run's success verdict. -/
theorem after_check_not_informational_cex :
    run_upvote_flow
        ⟨["pics".data], "u".data, false, false, none, ⟨true, []⟩⟩
        ⟨fun _ => false, true, [], [], [], Except.ok (false, none),
         Except.error (), 1, some "x".data, 1, 1⟩ =
      (false,
       [Act.persistentLaunch, Act.newPage, Act.gotoStreakCheck, Act.gotoListing,
        Act.gotoPost, Act.clickUpvote, Act.clickUnvote, Act.gotoStreakCheck,
        Act.closeContext]) ∧
    run_upvote_flow
        ⟨["pics".data], "u".data, false, false, none, ⟨true, []⟩⟩
        ⟨fun _ => false, true, [], [], [], Except.ok (false, none),
         Except.ok (true, none), 1, some "x".data, 1, 1⟩ =
      (true,
       [Act.persistentLaunch, Act.newPage, Act.gotoStreakCheck, Act.gotoListing,
        Act.gotoPost, Act.clickUpvote, Act.clickUnvote, Act.gotoStreakCheck,
        Act.closeContext]) := by
  refine ⟨by decide, by decide⟩

/-- Claim C1 (amended): the streak re-check after the unvote step is not
merely informational — for every run that reaches the after-check, an
exception inside that check (for example the status indicator never becoming
visible within its bound) is caught by the top-level handler and the run
returns success = false; only when the check completes (with either status)
does the run keep success = true. -/
theorem after_check_exception_fails_run (cfg : Config) (env : Env)
    (r : Bool) (d : Option Nat) (u : List Char)
    (hsub : cfg.subreddits ≠ [])
    (hurl : cfg.streakCheckUrl ≠ [])
    (hbefore : env.checkBefore = Except.ok (r, d))
    (hproceed : r = false ∨ cfg.testMode = true)
    (hlist : env.listingUpvoteCount ≠ 0)
    (hpost : env.postUrl = some u)
    (hpub : env.postUpvoteCount ≠ 0)
    (hchrome : select_strategy cfg.useChromeCookies
        (resolve_cookies_path_flow cfg.scriptDir cfg.cookiesFile) env.pathExists =
        AuthStrategy.chromeProfile → load_cookies_from_chrome env.chromeRaw ≠ []) :
    (∀ e : Unit, env.checkAfter = Except.error e →
      (run_upvote_flow cfg env).1 = false) ∧
    (∀ v : Bool × Option Nat, env.checkAfter = Except.ok v →
      (run_upvote_flow cfg env).1 = true) := by
  have hcond : (r && !cfg.testMode) = false := by
    rcases hproceed with rfl | ht
    · rfl
    · rw [ht]; simp
  constructor
  · intro e hafter
    rw [run_verdict cfg env hsub hchrome]
    simp [tryBody, votePhase, hurl, hbefore, hcond, hpost, hlist, hpub, hafter]
  · intro v hafter
    rw [run_verdict cfg env hsub hchrome]
    simp [tryBody, votePhase, hurl, hbefore, hcond, hpost, hlist, hpub, hafter]

/-- Witness for `after_check_exception_fails_run` on a concrete run whose
after-check raises. -/
theorem after_check_exception_fails_run_witness :
    (run_upvote_flow
        ⟨["aww".data], "u".data, false, false, none, ⟨true, []⟩⟩
        ⟨fun _ => false, true, [], [], [], Except.ok (false, none),
         Except.error (), 2, some "y".data, 2, 2⟩).1 = false :=
  (after_check_exception_fails_run
    ⟨["aww".data], "u".data, false, false, none, ⟨true, []⟩⟩
    ⟨fun _ => false, true, [], [], [], Except.ok (false, none),
     Except.error (), 2, some "y".data, 2, 2⟩
    false none "y".data (by decide) (by decide) rfl (Or.inl rfl) (by decide)
    rfl (by decide) (fun h => absurd h (by decide))).1 () rfl

/-- Claim C2 counterexample: with the cookie-file strategy selected and the
file yielding zero cookies, the run does not abort and does not report
failure — it navigates to the listing, votes, and returns success = true. -/
theorem zero_cookies_file_not_aborted_cex :
    fileCookies
        ⟨fun _ => true, true, [], [], [], Except.ok (false, none),
         Except.ok (false, none), 1, some "x".data, 1, 1⟩ = [] ∧
    run_upvote_flow
        ⟨["pics".data], [], false, true, some ⟨false, ["c.json".data]⟩,
         ⟨true, ["h".data]⟩⟩
        ⟨fun _ => true, true, [], [], [], Except.ok (false, none),
         Except.ok (false, none), 1, some "x".data, 1, 1⟩ =
      (true,
       [Act.launchBrowser, Act.newContext, Act.newPage, Act.gotoListing,
        Act.gotoPost, Act.clickUpvote, Act.clickUnvote, Act.closeContext,
        Act.closeBrowser]) := by
  refine ⟨rfl, by decide⟩

/-- Claim C2 (amended): a strategy yielding zero usable cookies aborts the run
immediately — before any page action, reporting failure — only for the live
Chrome-profile strategy; for the cookie-file strategy the empty cookie list is
merely logged and the run proceeds, its verdict being that of the main flow. -/
theorem zero_cookies_abort_only_chrome (cfg : Config) (env : Env)
    (hsub : cfg.subreddits ≠ []) :
    (select_strategy cfg.useChromeCookies
        (resolve_cookies_path_flow cfg.scriptDir cfg.cookiesFile) env.pathExists =
        AuthStrategy.chromeProfile →
      load_cookies_from_chrome env.chromeRaw = [] →
      run_upvote_flow cfg env =
        (false, [Act.launchBrowser, Act.newContext, Act.closeBrowser])) ∧
    (∀ p : PyPath, select_strategy cfg.useChromeCookies
        (resolve_cookies_path_flow cfg.scriptDir cfg.cookiesFile) env.pathExists =
        AuthStrategy.cookieFile p →
      (run_upvote_flow cfg env).1 = (tryBody cfg env).1) := by
  constructor
  · intro hsel hempty
    unfold run_upvote_flow
    rw [if_neg hsub, hsel, if_pos hempty]
  · intro p hsel
    exact run_verdict cfg env hsub (fun h => absurd (hsel.symm.trans h) (by simp))

/-- Witness for `zero_cookies_abort_only_chrome`: the Chrome strategy with an
empty jar aborts with failure before any page action. -/
theorem zero_cookies_abort_chrome_witness :
    run_upvote_flow
        ⟨["pics".data], [], false, true, none, ⟨true, []⟩⟩
        ⟨fun _ => false, true, [], [], [], Except.ok (false, none),
         Except.ok (false, none), 1, some "x".data, 1, 1⟩ =
      (false, [Act.launchBrowser, Act.newContext, Act.closeBrowser]) :=
  (zero_cookies_abort_only_chrome
    ⟨["pics".data], [], false, true, none, ⟨true, []⟩⟩
    ⟨fun _ => false, true, [], [], [], Except.ok (false, none),
     Except.ok (false, none), 1, some "x".data, 1, 1⟩
    (by decide)).1 (by decide) rfl

/-- Claim C8 counterexample: the Chrome-strategy zero-cookie abort launches a
browser session and creates a context, but closes only the browser — no
`context.close()` happens on that exit path. -/
theorem chrome_abort_context_not_closed_cex :
    run_upvote_flow
        ⟨["aww".data], [], false, true, none, ⟨true, []⟩⟩
        ⟨fun _ => false, false, [], [], [], Except.ok (false, none),
         Except.ok (false, none), 1, some "x".data, 1, 1⟩ =
      (false, [Act.launchBrowser, Act.newContext, Act.closeBrowser]) ∧
    Act.closeContext ∉ [Act.launchBrowser, Act.newContext, Act.closeBrowser] := by
  refine ⟨by decide, by decide⟩

/-- Claim C8 (amended): on every exit of the vote flow that reaches the main
`try` block — normal completion, early skip, step failure, exception — the
trace ends with the context being closed and then, when a separate browser
session was launched (cookie-file and Chrome strategies), the session closed
after it; the early abort when the Chrome strategy yields zero cookies instead
closes only the browser session, never the context. -/
theorem cleanup_context_then_browser (cfg : Config) (env : Env)
    (hsub : cfg.subreddits ≠ [])
    (hchrome : select_strategy cfg.useChromeCookies
        (resolve_cookies_path_flow cfg.scriptDir cfg.cookiesFile) env.pathExists =
        AuthStrategy.chromeProfile → load_cookies_from_chrome env.chromeRaw ≠ []) :
    ∃ pre : List Act,
      (run_upvote_flow cfg env).2 =
        pre ++ [Act.closeContext] ++
          (if select_strategy cfg.useChromeCookies
              (resolve_cookies_path_flow cfg.scriptDir cfg.cookiesFile)
              env.pathExists = AuthStrategy.persistentProfile
           then [] else [Act.closeBrowser]) := by
  rcases hsel : select_strategy cfg.useChromeCookies
      (resolve_cookies_path_flow cfg.scriptDir cfg.cookiesFile) env.pathExists
      with p | _ | _
  · refine ⟨(if fileCookies env = []
        then [Act.launchBrowser, Act.newContext, Act.newPage]
        else [Act.launchBrowser, Act.newContext,
              Act.addCookies (fileCookies env).length, Act.newPage]) ++
        (tryBody cfg env).2, ?_⟩
    unfold run_upvote_flow
    rw [if_neg hsub, hsel]
    simp [withCleanup, hsel]
  · refine ⟨[Act.launchBrowser, Act.newContext,
        Act.addCookies (load_cookies_from_chrome env.chromeRaw).length,
        Act.newPage] ++ (tryBody cfg env).2, ?_⟩
    unfold run_upvote_flow
    rw [if_neg hsub, hsel, if_neg (hchrome hsel)]
    simp [withCleanup, hsel]
  · refine ⟨[Act.persistentLaunch, Act.newPage] ++ (tryBody cfg env).2, ?_⟩
    unfold run_upvote_flow
    rw [if_neg hsub, hsel]
    simp [withCleanup, hsel]

/-- Witness for `cleanup_context_then_browser` on a concrete failing run
(no upvote buttons found) with the persistent-profile strategy. -/
theorem cleanup_context_then_browser_witness :
    ∃ pre : List Act,
      (run_upvote_flow
          ⟨["pics".data], [], false, false, none, ⟨true, []⟩⟩
          ⟨fun _ => false, true, [], [], [], Except.ok (false, none),
           Except.ok (false, none), 0, none, 0, 0⟩).2 =
        pre ++ [Act.closeContext] ++
          (if select_strategy false
              (resolve_cookies_path_flow ⟨true, []⟩ none) (fun _ => false) =
             AuthStrategy.persistentProfile
           then [] else [Act.closeBrowser]) :=
  cleanup_context_then_browser
    ⟨["pics".data], [], false, false, none, ⟨true, []⟩⟩
    ⟨fun _ => false, true, [], [], [], Except.ok (false, none),
     Except.ok (false, none), 0, none, 0, 0⟩
    (by decide) (fun h => absurd h (by decide))

/-- Claim C10: the vote flow and the standalone streak check resolve a
configured relative cookie-file path by the same rule — joined onto the
script's own directory — and when the resolved path does not exist the
cookie-file strategy is not selected: selection falls through to the
Chrome-profile / persistent-profile choice. -/
theorem cookie_path_resolution_consistent :
    (∀ (sd : PyPath) (cf : Option PyPath),
       resolve_cookies_path_flow sd cf = resolve_cookies_path_check sd cf) ∧
    (∀ sd p : PyPath, p.isAbsolute = false →
       resolve_cookies_path_flow sd (some p) = some (PyPath.join sd p)) ∧
    (∀ (uc : Bool) (sd : PyPath) (cf : Option PyPath) (pe : PyPath → Bool)
       (p : PyPath),
       resolve_cookies_path_flow sd cf = some p → pe p = false →
       select_strategy uc (resolve_cookies_path_flow sd cf) pe =
         (if uc then AuthStrategy.chromeProfile
          else AuthStrategy.persistentProfile)) := by
  refine ⟨fun sd cf => rfl, ?_, ?_⟩
  · intro sd p hp
    simp [resolve_cookies_path_flow, hp]
  · intro uc sd cf pe p hres hpe
    rw [hres]
    simp [select_strategy, hpe]

/-- Witness for `cookie_path_resolution_consistent` at a relative path that
does not exist. -/
theorem cookie_path_resolution_witness :
    resolve_cookies_path_flow ⟨true, ["home".data]⟩ (some ⟨false, ["c.txt".data]⟩) =
      some (PyPath.join ⟨true, ["home".data]⟩ ⟨false, ["c.txt".data]⟩) ∧
    select_strategy true
        (resolve_cookies_path_flow ⟨true, ["home".data]⟩
          (some ⟨false, ["c.txt".data]⟩)) (fun _ => false) =
      (if true then AuthStrategy.chromeProfile
       else AuthStrategy.persistentProfile) :=
  ⟨cookie_path_resolution_consistent.2.1 ⟨true, ["home".data]⟩
     ⟨false, ["c.txt".data]⟩ rfl,
   cookie_path_resolution_consistent.2.2 true ⟨true, ["home".data]⟩
     (some ⟨false, ["c.txt".data]⟩) (fun _ => false)
     ⟨true, ["home".data, "c.txt".data]⟩ (by decide) rfl⟩

end RS
